import Mathlib

/-!
Verification development for the `st-musicdb` media-indexer bot.

The Python sources are shallowly embedded: strings are `List Char`
(Unicode code points), the regular expressions of `bot/utils.py` are
embedded as explicit scanning functions with the exact matching
semantics of CPython `re` on those concrete patterns (documented at
each definition), MongoDB state is a list of documents with the
declared unique index, and the indexing loop of `bot/handlers.py` is a
fuel-indexed transition function (the fuel is an upper bound on loop
iterations, which advance `current` by one towards the final message id
each time, so it never runs out on the guarded paths).
-/

namespace StMusicDb

/-! ## Character predicates (`bot/utils.py` uses `re` character classes) -/

/-- Python `re` whitespace class `\s` for `str` patterns (equal to
`str.isspace` on every code point): the members below are exactly the
code points matched by `re.match(r"\s", c)` in CPython. -/
def isPySpace (c : Char) : Bool :=
  (0x9 ≤ c.toNat && c.toNat ≤ 0xd) || c.toNat = 0x20 ||
  (0x1c ≤ c.toNat && c.toNat ≤ 0x1f) || c.toNat = 0x85 || c.toNat = 0xa0 ||
  c.toNat = 0x1680 || (0x2000 ≤ c.toNat && c.toNat ≤ 0x200a) ||
  c.toNat = 0x2028 || c.toNat = 0x2029 || c.toNat = 0x202f ||
  c.toNat = 0x205f || c.toNat = 0x3000

/-- `[a-zA-Z0-9]`. -/
def isAlnum (c : Char) : Bool :=
  ('a' ≤ c && c ≤ 'z') || ('A' ≤ c && c ≤ 'Z') || ('0' ≤ c && c ≤ '9')

/-- `[0-9]`. -/
def isDigit (c : Char) : Bool := '0' ≤ c && c ≤ '9'

/-- `[a-zA-Z0-9_-]` (YouTube id class). -/
def isIdChar (c : Char) : Bool := isAlnum c || c = '_' || c = '-'

/-- `[\w-]` as used on the ASCII URLs accepted by the soundcloud
pattern: word character or hyphen. -/
def isWordDash (c : Char) : Bool := isAlnum c || c = '_' || c = '-'

/-- ASCII lowering, the fragment of `str.lower` / `re.IGNORECASE`
relevant to the ASCII pattern literals of `bot/utils.py`. -/
def lowerAscii (c : Char) : Char :=
  if 'A' ≤ c && c ≤ 'Z' then Char.ofNat (c.toNat + 32) else c

/-! ## TextNormalizer (`bot/utils.py` lines 100–113)

`comprehensive_clean = caption.replace('⁣','').replace('­','')`
followed by `re.sub(r'\s+', ' ', comprehensive_clean)`. -/

/-- The two separator code points stripped from captions:
soft hyphen U+00AD and invisible separator U+2063. -/
def isSeparatorChar (c : Char) : Bool := c = '⁣' || c = '­'

/-- `caption.replace('⁣','').replace('­','')`. -/
def removeSeps (cs : List Char) : List Char := cs.filter (fun c => !isSeparatorChar c)

/-- `re.sub(r'\s+', ' ', s)`: each maximal run of whitespace becomes a
single space.  The Boolean argument records whether the previously
scanned character belonged to a whitespace run (in which case further
whitespace of the same run emits nothing). -/
def collapseAux : Bool → List Char → List Char
  | _, [] => []
  | prevSpace, c :: t =>
    if isPySpace c then
      if prevSpace then collapseAux true t else ' ' :: collapseAux true t
    else c :: collapseAux false t

/-- `re.sub(r'\s+', ' ', s)`. -/
def collapseWS (l : List Char) : List Char := collapseAux false l

/-- The normalization step applied to captions before URL extraction
(`bot/utils.py` lines 100–113). -/
def normalizeCaption (cs : List Char) : List Char := collapseWS (removeSeps cs)

theorem collapseAux_mem (l : List Char) :
    ∀ b, ∀ c ∈ collapseAux b l, c = ' ' ∨ c ∈ l := by
  induction l with
  | nil => intro b c h; simp [collapseAux] at h
  | cons a t ih =>
    intro b c h
    by_cases ha : isPySpace a
    · cases b with
      | true =>
        simp only [collapseAux, ha, if_pos] at h
        rcases ih true c h with h' | h'
        · left; exact h'
        · right; exact List.mem_cons_of_mem _ h'
      | false =>
        simp only [collapseAux, ha, if_pos] at h
        rcases List.mem_cons.mp h with h' | h'
        · left; exact h'
        · rcases ih true c h' with h'' | h''
          · left; exact h''
          · right; exact List.mem_cons_of_mem _ h''
    · simp only [collapseAux, ha, Bool.false_eq_true, if_false] at h
      rcases List.mem_cons.mp h with h' | h'
      · right; simp [h']
      · rcases ih false c h' with h'' | h''
        · left; exact h''
        · right; exact List.mem_cons_of_mem _ h''

theorem collapseAux_idem (l : List Char) :
    collapseAux false (collapseAux false l) = collapseAux false l ∧
    collapseAux false (collapseAux true l) = collapseAux true l ∧
    collapseAux true (collapseAux true l) = collapseAux true l := by
  induction l with
  | nil => refine ⟨rfl, rfl, rfl⟩
  | cons c t ih =>
    obtain ⟨ih1, ih2, ih3⟩ := ih
    by_cases hc : isPySpace c
    · refine ⟨?_, ?_, ?_⟩
      · simp only [collapseAux, hc, if_pos, if_neg, Bool.false_eq_true, if_false,
          (by decide : isPySpace ' ' = true), ih3]
      · simp only [collapseAux, hc, if_pos, ih2]
      · simp only [collapseAux, hc, if_pos, ih3]
    · refine ⟨?_, ?_, ?_⟩
      · simp only [collapseAux, hc, Bool.false_eq_true, if_false, ih1]
      · simp only [collapseAux, hc, Bool.false_eq_true, if_false, ih1]
      · simp only [collapseAux, hc, Bool.false_eq_true, if_false, ih1]

theorem collapseWS_idem (l : List Char) :
    collapseWS (collapseWS l) = collapseWS l :=
  (collapseAux_idem l).1

theorem collapseWS_mem (l : List Char) :
    ∀ c ∈ collapseWS l, c = ' ' ∨ c ∈ l :=
  collapseAux_mem l false

theorem removeSeps_collapseWS_removeSeps (l : List Char) :
    removeSeps (collapseWS (removeSeps l)) = collapseWS (removeSeps l) := by
  unfold removeSeps
  apply List.filter_eq_self.mpr
  intro c hc
  rcases collapseWS_mem (List.filter (fun c => !isSeparatorChar c) l) c hc with h | h
  · simp [h, isSeparatorChar]
  · exact List.of_mem_filter (p := fun c => !isSeparatorChar c) h

/-! ## Matching primitives

Each pattern of `bot/utils.py` is embedded as a match-at-start function
`List Char → Option (List Char)` returning the remainder after the
match (or, for patterns with a capture group, `Option (List Char ×
List Char)` returning the captured text and the remainder).  Greedy
character-class repetitions are embedded as maximal runs; this is exact
for these patterns because in each of them the repeated class is
disjoint from the character that must follow, so CPython's backtracking
never shrinks the run.  `searchSome` is `re.search` (leftmost match);
`findall` is `re.findall` (leftmost, non-overlapping, resuming at each
match end; every embedded pattern consumes at least one character, so
`length + 1` fuel is never exhausted). -/

/-- Match a literal. -/
def lit? : List Char → List Char → Option (List Char)
  | [], cs => some cs
  | _, [] => none
  | n :: nt, c :: ct => if n = c then lit? nt ct else none

/-- Match a literal under `re.IGNORECASE` (ASCII case folding, the
fragment relevant to the ASCII literals of these patterns). -/
def litCI? : List Char → List Char → Option (List Char)
  | [], cs => some cs
  | _, [] => none
  | n :: nt, c :: ct => if lowerAscii n = lowerAscii c then litCI? nt ct else none

/-- `a?` for a single literal character (correct without backtracking
here because in every use the following literal starts differently). -/
def optChar (a : Char) : List Char → List Char
  | [] => []
  | c :: t => if c = a then t else c :: t

/-- `a?` under `re.IGNORECASE`. -/
def optCharCI (a : Char) : List Char → List Char
  | [] => []
  | c :: t => if lowerAscii c = a then t else c :: t

/-- `(?:lit)?` for a literal (e.g. `(?:www\.)?`). -/
def optLit (w : List Char) (cs : List Char) : List Char :=
  match lit? w cs with
  | some r => r
  | none => cs

/-- `p+` (greedy): the maximal non-empty run. -/
def span1 (p : Char → Bool) (cs : List Char) : Option (List Char × List Char) :=
  match cs.span p with
  | ([], _) => none
  | (run, rest) => some (run, rest)

/-- `\s*` (greedy). -/
def wsStar (cs : List Char) : List Char := (cs.span isPySpace).2

/-- Turn a remainder-matcher into a (whole match, remainder) matcher. -/
def withWhole (m : List Char → Option (List Char)) (cs : List Char) :
    Option (List Char × List Char) :=
  match m cs with
  | some rest => some (cs.take (cs.length - rest.length), rest)
  | none => none

/-- `[^\n]*?` (lazy) before an inner pattern: expand the gap one
non-newline character at a time, preferring the shortest gap. -/
def lazyGapNoNl (inner : List Char → Option α) : List Char → Option α
  | [] => inner []
  | c :: t =>
    match inner (c :: t) with
    | some a => some a
    | none => if c = '\n' then none else lazyGapNoNl inner t

/-- `re.search`: try the matcher at every start position, leftmost
first. -/
def searchSome (m : List Char → Option α) : List Char → Option α
  | [] => m []
  | c :: t =>
    match m (c :: t) with
    | some a => some a
    | none => searchSome m t

/-- `re.findall` worker; fuel bounds the number of scan steps. -/
def findallFuel (m : List Char → Option (α × List Char)) :
    Nat → List Char → List α
  | 0, _ => []
  | _ + 1, [] => []
  | fuel + 1, c :: t =>
    match m (c :: t) with
    | some (a, rest) => a :: findallFuel m fuel rest
    | none => findallFuel m fuel t

/-- `re.findall`. -/
def findall (m : List Char → Option (α × List Char)) (cs : List Char) : List α :=
  findallFuel m (cs.length + 1) cs

/-! ## The URL patterns of `bot/utils.py` -/

/-- `[^\s\)\n]` (note `\n ∈ \s`). -/
def isUrlChar (c : Char) : Bool := !isPySpace c && !(c = ')')

/-- `[^/]`. -/
def notSlash (c : Char) : Bool := !(c = '/')

/-- `https?://open\.spotify\.com/track/[a-zA-Z0-9]+` (lines 118, 171). -/
def spotifyFullM (cs : List Char) : Option (List Char) := do
  let r ← lit? "http".data cs
  let r := optChar 's' r
  let r ← lit? "://open.spotify.com/track/".data r
  let (_, r) ← span1 isAlnum r
  pure r

/-- `https?://[^\s\)\n]+` (line 170). -/
def generalUrlM (cs : List Char) : Option (List Char) := do
  let r ← lit? "http".data cs
  let r := optChar 's' r
  let r ← lit? "://".data r
  let (_, r) ← span1 isUrlChar r
  pure r

/-- `https?://[^\s\)\n]+` under `re.IGNORECASE` (the capture group of
the `info` patterns, lines 129–132). -/
def generalUrlCIM (cs : List Char) : Option (List Char) := do
  let r ← litCI? "http".data cs
  let r := optCharCI 's' r
  let r ← lit? "://".data r
  let (_, r) ← span1 isUrlChar r
  pure r

/-- `info[^\n]*?(https?://[^\s\)\n]+)` with `re.IGNORECASE`
(lines 129–131; the three spellings `info`/`Info`/`INFO` coincide under
the flag).  Capture: the URL text. -/
def infoUrlM (cs : List Char) : Option (List Char × List Char) := do
  let r ← litCI? "info".data cs
  lazyGapNoNl (withWhole generalUrlCIM) r

/-- `\|\s*info[^\n]*?(https?://[^\s\)\n]+)` with `re.IGNORECASE`
(line 132). -/
def pipeInfoUrlM (cs : List Char) : Option (List Char × List Char) := do
  let r ← lit? "|".data cs
  let r := wsStar r
  let r ← litCI? "info".data r
  lazyGapNoNl (withWhole generalUrlCIM) r

/-- `info[\s]*([^\s\n]*)` with `re.IGNORECASE` (line 147).  Capture:
the (possibly empty) non-whitespace run after `info`. -/
def infoSectionM (cs : List Char) : Option (List Char × List Char) := do
  let r ← litCI? "info".data cs
  let r := wsStar r
  let (cap, rest) := r.span (fun c => !isPySpace c)
  pure (cap, rest)

/-- `\|\s*info[\s]*([^\s\n]*)` with `re.IGNORECASE` (line 148). -/
def pipeInfoSectionM (cs : List Char) : Option (List Char × List Char) := do
  let r ← lit? "|".data cs
  let r := wsStar r
  let r ← litCI? "info".data r
  let r := wsStar r
  let (cap, rest) := r.span (fun c => !isPySpace c)
  pure (cap, rest)

/-- `[a-zA-Z0-9]{22}` (line 159). -/
def run22M (cs : List Char) : Option (List Char × List Char) :=
  let pre := cs.take 22
  if pre.length = 22 && pre.all isAlnum then some (pre, cs.drop 22) else none

/-- `https\s*:\s*//\s*open\.\s*spotify\.\s*com\s*/\s*track\s*/\s*([a-zA-Z0-9]+)`
(line 193). -/
def brokenM1 (cs : List Char) : Option (List Char × List Char) := do
  let r ← lit? "https".data cs
  let r ← lit? ":".data (wsStar r)
  let r ← lit? "//".data (wsStar r)
  let r ← lit? "open.".data (wsStar r)
  let r ← lit? "spotify.".data (wsStar r)
  let r ← lit? "com".data (wsStar r)
  let r ← lit? "/".data (wsStar r)
  let r ← lit? "track".data (wsStar r)
  let r ← lit? "/".data (wsStar r)
  span1 isAlnum (wsStar r)

/-- `https://open\.\s*spotify\.\s*com\s*/\s*track\s*/\s*([a-zA-Z0-9]+)`
(line 194). -/
def brokenM2 (cs : List Char) : Option (List Char × List Char) := do
  let r ← lit? "https://open.".data cs
  let r ← lit? "spotify.".data (wsStar r)
  let r ← lit? "com".data (wsStar r)
  let r ← lit? "/".data (wsStar r)
  let r ← lit? "track".data (wsStar r)
  let r ← lit? "/".data (wsStar r)
  span1 isAlnum (wsStar r)

/-- `https://open\.spotify\.\s*com\s*/\s*track\s*/\s*([a-zA-Z0-9]+)`
(line 195). -/
def brokenM3 (cs : List Char) : Option (List Char × List Char) := do
  let r ← lit? "https://open.spotify.".data cs
  let r ← lit? "com".data (wsStar r)
  let r ← lit? "/".data (wsStar r)
  let r ← lit? "track".data (wsStar r)
  let r ← lit? "/".data (wsStar r)
  span1 isAlnum (wsStar r)

/-- `open\.spotify\.com/track/([a-zA-Z0-9]+)` (line 222). -/
def openTrackCapM (cs : List Char) : Option (List Char × List Char) := do
  let r ← lit? "open.spotify.com/track/".data cs
  span1 isAlnum r

/-! ## Platform table patterns (`bot/utils.py` lines 85–92) -/

/-- `https?://open\.spotify\.com/track/([a-zA-Z0-9]+)`. -/
def spotifyCapM (cs : List Char) : Option (List Char × List Char) := do
  let r ← lit? "http".data cs
  let r := optChar 's' r
  let r ← lit? "://open.spotify.com/track/".data r
  span1 isAlnum r

/-- `https?://(?:www\.)?jiosaavn\.com/song/[^/]+/([a-zA-Z0-9]+)`. -/
def jiosaavnCapM (cs : List Char) : Option (List Char × List Char) := do
  let r ← lit? "http".data cs
  let r := optChar 's' r
  let r ← lit? "://".data r
  let r := optLit "www.".data r
  let r ← lit? "jiosaavn.com/song/".data r
  let (_, r) ← span1 notSlash r
  let r ← lit? "/".data r
  span1 isAlnum r

/-- `https?://(?:www\.)?youtube\.com/watch\?v=([a-zA-Z0-9_-]+)`. -/
def youtubeCapM (cs : List Char) : Option (List Char × List Char) := do
  let r ← lit? "http".data cs
  let r := optChar 's' r
  let r ← lit? "://".data r
  let r := optLit "www.".data r
  let r ← lit? "youtube.com/watch?v=".data r
  span1 isIdChar r

/-- `https?://youtu\.be/([a-zA-Z0-9_-]+)`. -/
def youtuBeCapM (cs : List Char) : Option (List Char × List Char) := do
  let r ← lit? "http".data cs
  let r := optChar 's' r
  let r ← lit? "://youtu.be/".data r
  span1 isIdChar r

/-- `https?://soundcloud\.com/[\w-]+/[\w-]+` (no capture group). -/
def soundcloudM (cs : List Char) : Option (List Char) := do
  let r ← lit? "http".data cs
  let r := optChar 's' r
  let r ← lit? "://soundcloud.com/".data r
  let (_, r) ← span1 isWordDash r
  let r ← lit? "/".data r
  let (_, r) ← span1 isWordDash r
  pure r

/-- `https?://music\.apple\.com/[^/]+/album/[^/]+/([0-9]+)`. -/
def appleCapM (cs : List Char) : Option (List Char × List Char) := do
  let r ← lit? "http".data cs
  let r := optChar 's' r
  let r ← lit? "://music.apple.com/".data r
  let (_, r) ← span1 notSlash r
  let r ← lit? "/album/".data r
  let (_, r) ← span1 notSlash r
  let r ← lit? "/".data r
  span1 isDigit r

/-! ## Python string helpers used by `extract_track_info` -/

/-- Python `needle in hay` (substring test). -/
def containsSub (needle : List Char) : List Char → Bool
  | [] => needle.isEmpty
  | c :: t => needle.isPrefixOf (c :: t) || containsSub needle t

/-- `s.lower()` (ASCII fragment). -/
def lowerStr (cs : List Char) : List Char := cs.map lowerAscii

/-- The character set of `word.rstrip('.,!?;)')` (line 186). -/
def isStripChar (c : Char) : Bool :=
  c = '.' || c = ',' || c = '!' || c = '?' || c = ';' || c = ')'

/-- `word.rstrip('.,!?;)')`. -/
def rstripPunct (cs : List Char) : List Char :=
  (cs.reverse.dropWhile isStripChar).reverse

/-- `s.split()` (split on whitespace runs, no empty words). -/
def splitWSAux : List Char → List Char → List (List Char)
  | acc, [] => if acc.isEmpty then [] else [acc.reverse]
  | acc, c :: t =>
    if isPySpace c then
      if acc.isEmpty then splitWSAux [] t else acc.reverse :: splitWSAux [] t
    else splitWSAux (c :: acc) t

/-- `s.split()`. -/
def splitWS (cs : List Char) : List (List Char) := splitWSAux [] cs

/-- `url.split("/")[-1]`: the text after the last `/` (the whole string
if there is none). -/
def lastSegAux : List Char → List Char → List Char
  | acc, [] => acc.reverse
  | acc, c :: t => if c = '/' then lastSegAux [] t else lastSegAux (c :: acc) t

/-- `url.split("/")[-1]`. -/
def lastSegment (cs : List Char) : List Char := lastSegAux [] cs

/-- Order-preserving deduplication, `list(dict.fromkeys(...))`
(line 213). -/
def dedupAux : List (List Char) → List (List Char) → List (List Char)
  | _, [] => []
  | seen, x :: t =>
    if x ∈ seen then dedupAux seen t else x :: dedupAux (x :: seen) t

/-- `list(dict.fromkeys(...))`. -/
def dedupKeepFirst (l : List (List Char)) : List (List Char) := dedupAux [] l

/-! ## Candidate collection (`extract_track_info`, lines 96–226) -/

/-- `f"https://open.spotify.com/track/{track_id}"`. -/
def reconUrl (tid : List Char) : List Char :=
  "https://open.spotify.com/track/".data ++ tid

/-- Strategy 2 (lines 117–120): spotify URLs found in the cleaned
caption. -/
def strat2 (clean : List Char) : List (List Char) :=
  findall (withWhole spotifyFullM) clean

/-- Strategy 3 (lines 122–124): spotify URLs found in the original
caption. -/
def strat3 (caption : List Char) : List (List Char) :=
  findall (withWhole spotifyFullM) caption

/-- Strategy 4 (lines 126–140): URLs following the token `info`.  For
each of the four `info_patterns` the code collects matches from the
cleaned and then the original caption; under `re.IGNORECASE` the first
three patterns are the same, so their contribution appears three
times. -/
def strat4 (caption clean : List Char) : List (List Char) :=
  let one := findall infoUrlM clean ++ findall infoUrlM caption
  one ++ one ++ one ++
    (findall pipeInfoUrlM clean ++ findall pipeInfoUrlM caption)

/-- Strategy 5 (lines 142–166): 22-character alphanumeric runs in the
text after `info`, synthesized into spotify URLs.  The guard
`info_content and len(info_content) > 10` is `10 < length` (a string of
length over ten is non-empty), and every `[a-zA-Z0-9]{22}` match has
length 22, so the inner length-22 test always passes. -/
def strat5 (clean : List Char) : List (List Char) :=
  if containsSub "info".data (lowerStr clean) then
    (findall infoSectionM clean).flatMap (fun content =>
      if 10 < content.length then
        (findall run22M content).map reconUrl
      else []) ++
    (findall pipeInfoSectionM clean).flatMap (fun content =>
      if 10 < content.length then
        (findall run22M content).map reconUrl
      else [])
  else []

/-- Strategy 5b (lines 168–180): general URL extraction, original
caption then cleaned caption, for each of `general_patterns`. -/
def strat5b (caption clean : List Char) : List (List Char) :=
  findall (withWhole generalUrlM) caption ++
    findall (withWhole generalUrlM) clean ++
    findall (withWhole spotifyFullM) caption ++
    findall (withWhole spotifyFullM) clean

/-- Strategy 6 (lines 182–188): whitespace-split words of the cleaned
caption, right-stripped of punctuation, kept when they contain
`spotify.com/track/`. -/
def strat6 (clean : List Char) : List (List Char) :=
  (splitWS clean).filterMap (fun w =>
    let cw := rstripPunct w
    if containsSub "spotify.com/track/".data cw then some cw else none)

/-- Strategy 7 (lines 190–210): broken spotify URLs (fragments
separated by whitespace) rejoined; for each of the three patterns, the
original caption is scanned and then the cleaned caption. -/
def strat7 (caption clean : List Char) : List (List Char) :=
  (findall brokenM1 caption).map reconUrl ++
    (findall brokenM1 clean).map reconUrl ++
    (findall brokenM2 caption).map reconUrl ++
    (findall brokenM2 clean).map reconUrl ++
    (findall brokenM3 caption).map reconUrl ++
    (findall brokenM3 clean).map reconUrl

/-- The `urls` list accumulated by strategies 2–7, in program order. -/
def strategyUrls (caption : List Char) : List (List Char) :=
  let clean := normalizeCaption caption
  strat2 clean ++ strat3 caption ++ strat4 caption clean ++
    strat5 clean ++ strat5b caption clean ++ strat6 clean ++
    strat7 caption clean

/-- The candidates produced without the reconstruction heuristics
(strategies 5 and 7 and the final fallback dropped; used to state what
the heuristics contribute). -/
def directUrls (caption : List Char) : List (List Char) :=
  let clean := normalizeCaption caption
  strat2 clean ++ strat3 caption ++ strat4 caption clean ++
    strat5b caption clean ++ strat6 clean

/-- `unique_urls` before the fallback (line 213): truthy URLs,
deduplicated keeping first occurrences. -/
def uniqueUrlsPre (caption : List Char) : List (List Char) :=
  dedupKeepFirst ((strategyUrls caption).filter (fun u => !u.isEmpty))

/-- `unique_urls` after the fragmented-URL fallback (lines 216–226),
which fires only when no URL was collected and the caption mentions
`spotify.com`. -/
def uniqueUrls (caption : List Char) : List (List Char) :=
  let pre := uniqueUrlsPre caption
  if pre.isEmpty && containsSub "spotify.com".data caption then
    if containsSub "open.spotify.com/track/".data caption then
      match searchSome openTrackCapM caption with
      | some (tid, _) => pre ++ [reconUrl tid]
      | none => pre
    else pre
  else pre

/-! ## TrackExtractor (`extract_track_info`, lines 228–247) -/

/-- The resolved outcome: the dictionary built by the final loop always
carries the three keys `track_url`, `track_id`, `platform`. -/
structure TrackMatch where
  track_url : List Char
  track_id : List Char
  platform : List Char
deriving DecidableEq

/-- The inner loop over the platform table (lines 229–242), in the
fixed insertion order of the `patterns` dict; platforms other than
soundcloud take the capture group as track id, soundcloud takes the
last path segment of the candidate URL. -/
def matchCandidate (url : List Char) : Option TrackMatch :=
  match searchSome spotifyCapM url with
  | some (tid, _) => some ⟨url, tid, "spotify".data⟩
  | none =>
  match searchSome jiosaavnCapM url with
  | some (tid, _) => some ⟨url, tid, "jiosaavn".data⟩
  | none =>
  match searchSome youtubeCapM url with
  | some (tid, _) => some ⟨url, tid, "youtube".data⟩
  | none =>
  match searchSome youtuBeCapM url with
  | some (tid, _) => some ⟨url, tid, "youtu.be".data⟩
  | none =>
  match searchSome soundcloudM url with
  | some _ => some ⟨url, lastSegment url, "soundcloud".data⟩
  | none =>
  match searchSome appleCapM url with
  | some (tid, _) => some ⟨url, tid, "apple_music".data⟩
  | none => none

/-- The outer loop over candidates (lines 228–245): first candidate
with a platform match wins, later candidates are not examined. -/
def scanCandidates : List (List Char) → Option TrackMatch
  | [] => none
  | u :: t =>
    match matchCandidate u with
    | some m => some m
    | none => scanCandidates t

/-- `extract_track_info` (`bot/utils.py` lines 76–251): `None` models
the empty dictionary. -/
def extract_track_info (caption : List Char) : Option TrackMatch :=
  if caption.isEmpty then none
  else scanCandidates (uniqueUrls caption)

/-- The platform column of the table (lines 85–92), in order. -/
def platformNames : List (List Char) :=
  ["spotify".data, "jiosaavn".data, "youtube".data, "youtu.be".data,
    "soundcloud".data, "apple_music".data]

/-- **C2.** The caption normalization step (strip U+00AD and U+2063,
then collapse whitespace runs to a single space; `bot/utils.py` lines
100–113) is idempotent: a second application is the identity. -/
theorem normalize_idempotent (s : List Char) :
    normalizeCaption (normalizeCaption s) = normalizeCaption s := by
  unfold normalizeCaption
  rw [removeSeps_collapseWS_removeSeps, collapseWS_idem]

/-- **C1.** The final loop of `extract_track_info` returns the match of
the first candidate (in list order) that matches any platform pattern —
the platform table being tried in its fixed order by `matchCandidate` —
without examining later candidates; it returns none when no candidate
matches; and on the two candidates
`["https://example.com/not-a-track", "https://open.spotify.com/track/ABCDEFGHIJKLMNOPQRSTUV"]`
it returns the spotify match with that track id. -/
theorem extract_first_candidate_wins :
    (∀ (pre : List (List Char)) (x : List Char) (post : List (List Char))
        (m : TrackMatch),
        (∀ y ∈ pre, matchCandidate y = none) → matchCandidate x = some m →
        scanCandidates (pre ++ x :: post) = some m) ∧
    (∀ urls : List (List Char), (∀ y ∈ urls, matchCandidate y = none) →
        scanCandidates urls = none) ∧
    scanCandidates ["https://example.com/not-a-track".data,
        "https://open.spotify.com/track/ABCDEFGHIJKLMNOPQRSTUV".data] =
      some ⟨"https://open.spotify.com/track/ABCDEFGHIJKLMNOPQRSTUV".data,
            "ABCDEFGHIJKLMNOPQRSTUV".data, "spotify".data⟩ := by
  refine ⟨?_, ?_, by decide⟩
  · intro pre x post m hpre hx
    induction pre with
    | nil => simp [scanCandidates, hx]
    | cons y t ih =>
      have hy := hpre y (List.mem_cons_self y t)
      simp only [List.cons_append, scanCandidates, hy]
      exact ih fun z hz => hpre z (List.mem_cons_of_mem _ hz)
  · intro urls h
    induction urls with
    | nil => rfl
    | cons y t ih =>
      have hy := h y (List.mem_cons_self y t)
      simp only [scanCandidates, hy]
      exact ih fun z hz => h z (List.mem_cons_of_mem _ hz)

theorem extract_first_candidate_wins_witness :
    (∀ y ∈ ["nope".data], matchCandidate y = none) ∧
    matchCandidate "https://youtu.be/abc".data =
      some ⟨"https://youtu.be/abc".data, "abc".data, "youtu.be".data⟩ ∧
    scanCandidates ["nope".data, "https://youtu.be/abc".data, "later".data] =
      some ⟨"https://youtu.be/abc".data, "abc".data, "youtu.be".data⟩ :=
  ⟨by decide, by decide,
    extract_first_candidate_wins.1 ["nope".data] "https://youtu.be/abc".data
      ["later".data] _ (by decide) (by decide)⟩

theorem matchCandidate_platform_mem (u : List Char) (m : TrackMatch)
    (h : matchCandidate u = some m) : m.platform ∈ platformNames := by
  unfold matchCandidate at h
  repeat' split at h
  all_goals simp_all [platformNames]
  all_goals subst h
  all_goals simp

/-- **C9.** For every caption (including the empty one),
`extract_track_info` yields either the empty result or a complete
track record whose platform is one of the six table entries. -/
theorem extract_track_info_shape (caption : List Char) :
    extract_track_info caption = none ∨
    ∃ m, extract_track_info caption = some m ∧ m.platform ∈ platformNames := by
  unfold extract_track_info
  by_cases hc : caption.isEmpty
  · left; simp [hc]
  · simp only [hc, Bool.false_eq_true, if_false]
    generalize uniqueUrls caption = urls
    induction urls with
    | nil => left; rfl
    | cons u t ih =>
      cases hm : matchCandidate u with
      | some m =>
        right
        exact ⟨m, by simp [scanCandidates, hm],
          matchCandidate_platform_mem u m hm⟩
      | none =>
        simpa [scanCandidates, hm] using ih

/-- **C3 (counterexample).** On the caption below the direct sources
(general URL extraction, strategy 5b) produce the soundcloud candidate,
yet the 22-character-run heuristic of strategy 5 still synthesizes a
spotify candidate, which even ends up first in the candidate set: the
heuristics are not gated on the direct sources producing nothing. -/
theorem heuristics_not_gated_counterexample :
    ((directUrls "https://soundcloud.com/user-name/track-name info AAAAAAAAAAAAAAAAAAAAAA".data).filter
        (fun u => !u.isEmpty)) ≠ [] ∧
    uniqueUrls "https://soundcloud.com/user-name/track-name info AAAAAAAAAAAAAAAAAAAAAA".data ≠
      dedupKeepFirst
        ((directUrls "https://soundcloud.com/user-name/track-name info AAAAAAAAAAAAAAAAAAAAAA".data).filter
          (fun u => !u.isEmpty)) ∧
    reconUrl "AAAAAAAAAAAAAAAAAAAAAA".data ∈
      uniqueUrls "https://soundcloud.com/user-name/track-name info AAAAAAAAAAAAAAAAAAAAAA".data := by
  refine ⟨by decide, by decide, by decide⟩

/-- **C3 (amended).** Only the final fragment-rejoining fallback
(lines 216–226) is restricted to the case where no candidate was
collected: whenever the strategies produced at least one candidate the
fallback adds nothing.  The other reconstruction heuristics run
unconditionally — on the counterexample caption the synthesized spotify
candidate is even the extraction result, outranking the direct
soundcloud candidate. -/
theorem fallback_gating_amended :
    (∀ caption : List Char, uniqueUrlsPre caption ≠ [] →
        uniqueUrls caption = uniqueUrlsPre caption) ∧
    extract_track_info "https://soundcloud.com/user-name/track-name info AAAAAAAAAAAAAAAAAAAAAA".data =
      some ⟨reconUrl "AAAAAAAAAAAAAAAAAAAAAA".data,
            "AAAAAAAAAAAAAAAAAAAAAA".data, "spotify".data⟩ := by
  constructor
  · intro caption h
    unfold uniqueUrls
    have : (uniqueUrlsPre caption).isEmpty = false := by
      cases hu : uniqueUrlsPre caption with
      | nil => exact absurd hu h
      | cons a t => rfl
    simp [this]
  · decide

theorem fallback_gating_amended_witness :
    uniqueUrlsPre "https://youtu.be/abc".data ≠ [] ∧
    uniqueUrls "https://youtu.be/abc".data =
      uniqueUrlsPre "https://youtu.be/abc".data :=
  ⟨by decide, fallback_gating_amended.1 "https://youtu.be/abc".data (by decide)⟩

/-! ## IndexingLoop (`index_channel_messages`, `bot/handlers.py`
lines 645–812)

The loop body is embedded as one transition per message id.  The
message source and the externally writable stop flag are oracles; the
stop flag is indexed by the loop position at which it is read (it is
polled in the `while` condition before each fetch).  Status-message
formatting and the sleep calls are view/timing glue and are not part of
the state; the observables kept are the fetch attempts, the processed
and error counters, and the sequence numbers passed to the cursor-save
calls. -/

/-- Result of `client.get_messages(chat_id, current)`: an exception
(line 753), or a message that does or does not carry media, whose
per-item processing (line 714) succeeds or raises (line 743). -/
inductive FetchOutcome
  | failure
  | success (hasMedia : Bool) (procErr : Bool)
deriving DecidableEq

/-- The loop's environment: the message source and the stop flag
(monotone external signal, read at the top of each iteration). -/
structure ScanEnv where
  fetch : Nat → FetchOutcome
  stopFlag : Nat → Bool

/-- The terminal report of the session: the Stopped banner (line 774),
the completion banner (line 787), or the `❌ Indexing Failed` banner of
the exception handler (line 804) — the last is unreachable in this
embedding because fetch failures are caught inside the loop. -/
inductive SessionOutcome
  | stopped
  | completedBanner
  | failedBanner
deriving DecidableEq

/-- The loop variables of lines 665–676. -/
structure ScanState where
  current : Nat
  consecutiveFailures : Nat
  fetchedOk : Nat
  processed : Nat
  errors : Nat
  lastSaved : Nat
  attempts : List Nat
  saves : List Nat
deriving DecidableEq

/-- One iteration of the `while` body (lines 693–765): a fetch failure
increments the consecutive-failure counter (line 755); a successful
fetch resets it to zero (line 697), counts the item (lines 714–716) or
its processing error (line 745), and saves the cursor every 50
messages (lines 748–751); either way `current` advances by one. -/
def scanIter (env : ScanEnv) (s : ScanState) : ScanState :=
  match env.fetch s.current with
  | .failure =>
    { s with consecutiveFailures := s.consecutiveFailures + 1,
             attempts := s.attempts ++ [s.current],
             current := s.current + 1 }
  | .success hasMedia procErr =>
    let s1 := { s with consecutiveFailures := 0, fetchedOk := s.fetchedOk + 1,
                       attempts := s.attempts ++ [s.current] }
    let s2 := if hasMedia then
                if procErr then { s1 with errors := s1.errors + 1 }
                else { s1 with processed := s1.processed + 1 }
              else s1
    let s3 := if 50 ≤ s2.current - s2.lastSaved then
                { s2 with saves := s2.saves ++ [s2.current],
                          lastSaved := s2.current }
              else s2
    { s3 with current := s3.current + 1 }

/-- The `while` condition (line 692). -/
def scanGuard (env : ScanEnv) (maxF final : Nat) (s : ScanState) : Bool :=
  decide (s.consecutiveFailures < maxF) && decide (s.current ≤ final) &&
    !env.stopFlag s.current

/-- The `while` loop; the fuel bounds the number of iterations (each
iteration advances `current` by one and the guard requires
`current ≤ final`, so `final + 1 - start` fuel is never exhausted). -/
def scanLoop (env : ScanEnv) (maxF final : Nat) : Nat → ScanState → ScanState
  | 0, s => s
  | fuel + 1, s =>
    if scanGuard env maxF final s then scanLoop env maxF final fuel (scanIter env s)
    else s

/-- The observables of a finished session. -/
structure ScanResult where
  outcome : SessionOutcome
  finalSaved : Nat
  attempts : List Nat
  saves : List Nat
  processed : Nat
  errors : Nat
deriving DecidableEq

/-- The loop variables at entry (lines 665–676): `current` and
`last_saved_progress` start at `start_message_id`, the counters at
zero. -/
def initScanState (start : Nat) : ScanState :=
  ⟨start, 0, 0, 0, 0, start, [], []⟩

/-- The code after the loop (lines 767–799): the unconditional final
cursor save at `current - 1` and the choice of terminal banner, which
tests only `stop_requested`. -/
def mkResult (env : ScanEnv) (s : ScanState) : ScanResult :=
  { outcome := if env.stopFlag s.current then .stopped else .completedBanner
    finalSaved := s.current - 1
    attempts := s.attempts
    saves := s.saves ++ [s.current - 1]
    processed := s.processed
    errors := s.errors }

/-- `index_channel_messages` over a synthetic environment. -/
def runIndexing (env : ScanEnv) (maxF start final : Nat) : ScanResult :=
  mkResult env (scanLoop env maxF final (final + 1 - start) (initScanState start))

/-- The environment of the C4 scenario: sequences 5 and 6 permanently
unfetchable, every other sequence a processable media message, no stop
request. -/
def envC4 : ScanEnv :=
  ⟨fun n => if n = 5 ∨ n = 6 then .failure else .success true false,
   fun _ => false⟩

/-- **C4 (counterexample).** With `max_failures = 2`, sequences 5 and 6
unfetchable, scanning 1..10: the loop does abort after processing 1–4
and failing at 5 and 6 (no sequence past 6 is fetched), but the session
does not transition to a Failed state — the non-stop exit path emits
the normal completion banner (lines 784–799); the Failed banner is
produced only by the unhandled-exception handler. -/
theorem failure_budget_not_failed_counterexample :
    (runIndexing envC4 2 1 10).outcome ≠ SessionOutcome.failedBanner ∧
    (runIndexing envC4 2 1 10).outcome = SessionOutcome.completedBanner ∧
    (runIndexing envC4 2 1 10).attempts = [1, 2, 3, 4, 5, 6] ∧
    (runIndexing envC4 2 1 10).processed = 4 := by
  refine ⟨by decide, by decide, by decide, by decide⟩

theorem scanIter_failure_cf (env : ScanEnv) (s : ScanState)
    (h : env.fetch s.current = .failure) :
    (scanIter env s).consecutiveFailures = s.consecutiveFailures + 1 := by
  unfold scanIter
  rw [h]

theorem scanIter_success_props (env : ScanEnv) (s : ScanState)
    (hm : Bool) (hp : Bool) (h : env.fetch s.current = .success hm hp) :
    (scanIter env s).consecutiveFailures = 0 ∧
    (scanIter env s).current = s.current + 1 ∧
    (scanIter env s).attempts = s.attempts ++ [s.current] := by
  unfold scanIter
  rw [h]
  cases hm <;> cases hp <;> dsimp only <;>
    refine ⟨?_, ?_, ?_⟩ <;> (repeat' split) <;> simp

theorem scanLoop_exhausted (env : ScanEnv) (maxF final : Nat) :
    ∀ fuel (s : ScanState), maxF ≤ s.consecutiveFailures →
      scanLoop env maxF final fuel s = s := by
  intro fuel
  cases fuel with
  | zero => intro s _; rfl
  | succ fuel =>
    intro s h
    have hg : scanGuard env maxF final s = false := by
      unfold scanGuard
      simp [Nat.not_lt.mpr h]
    unfold scanLoop
    rw [hg]
    simp

/-- **C4 (amended).** In the indexing loop each fetch failure increments
the consecutive-failure counter and each successful fetch resets it to
zero; once the counter reaches `max_failures` the loop stops — no
further sequence is fetched — but the session then reports the normal
completion status, not a Failed state (the Failed banner belongs to the
unhandled-exception path).  In particular, with `max_failures = 2` and
sequences 5 and 6 permanently unfetchable the session fetches exactly
1–6, processes 1–4, and ends with the completion banner. -/
theorem failure_budget_aborts_amended :
    (∀ (env : ScanEnv) (s : ScanState), env.fetch s.current = .failure →
        (scanIter env s).consecutiveFailures = s.consecutiveFailures + 1) ∧
    (∀ (env : ScanEnv) (s : ScanState) (hm hp : Bool),
        env.fetch s.current = .success hm hp →
        (scanIter env s).consecutiveFailures = 0) ∧
    (∀ (env : ScanEnv) (maxF final fuel : Nat) (s : ScanState),
        maxF ≤ s.consecutiveFailures → scanLoop env maxF final fuel s = s) ∧
    ((runIndexing envC4 2 1 10).attempts = [1, 2, 3, 4, 5, 6] ∧
      (runIndexing envC4 2 1 10).processed = 4 ∧
      (runIndexing envC4 2 1 10).outcome = SessionOutcome.completedBanner) :=
  ⟨scanIter_failure_cf,
   fun env s hm hp h => (scanIter_success_props env s hm hp h).1,
   fun env maxF final fuel s h => scanLoop_exhausted env maxF final fuel s h,
   by decide, by decide, by decide⟩

theorem failure_budget_aborts_amended_witness :
    (scanIter ⟨fun _ => .failure, fun _ => false⟩ (initScanState 1)).consecutiveFailures = 1 ∧
    (scanIter ⟨fun _ => .success true false, fun _ => false⟩
        { initScanState 1 with consecutiveFailures := 3 }).consecutiveFailures = 0 ∧
    scanLoop ⟨fun _ => .failure, fun _ => false⟩ 2 10 9
        { initScanState 1 with consecutiveFailures := 2 } =
      { initScanState 1 with consecutiveFailures := 2 } :=
  ⟨failure_budget_aborts_amended.1 ⟨fun _ => .failure, fun _ => false⟩ (initScanState 1) rfl,
   failure_budget_aborts_amended.2.1 ⟨fun _ => .success true false, fun _ => false⟩
     { initScanState 1 with consecutiveFailures := 3 } true false rfl,
   failure_budget_aborts_amended.2.2.1 ⟨fun _ => .failure, fun _ => false⟩ 2 10 9
     { initScanState 1 with consecutiveFailures := 2 } (by decide)⟩

/-- The sequence numbers `a..b` (empty when `a > b`). -/
def seqRange (a b : Nat) : List Nat := List.range' a (b + 1 - a)

theorem seqRange_eq_cons (a b : Nat) (h : a ≤ b) :
    seqRange a b = a :: seqRange (a + 1) b := by
  unfold seqRange
  have h1 : b + 1 - a = (b - a) + 1 := by omega
  have h2 : b + 1 - (a + 1) = b - a := by omega
  rw [h1, h2]
  rfl

theorem scanLoop_stop_run (env : ScanEnv) (maxF final k : Nat)
    (hmax : 0 < maxF) (hkf : k ≤ final)
    (hstop : ∀ n, env.stopFlag n = decide (k < n))
    (hfetch : ∀ n, n ≤ k → env.fetch n ≠ .failure) :
    ∀ fuel (s : ScanState), s.consecutiveFailures = 0 → s.current ≤ k + 1 →
      k + 1 - s.current ≤ fuel →
      (scanLoop env maxF final fuel s).current = k + 1 ∧
      (scanLoop env maxF final fuel s).attempts = s.attempts ++ seqRange s.current k := by
  intro fuel
  induction fuel with
  | zero =>
    intro s h0 hle hf
    have hc : s.current = k + 1 := le_antisymm hle (by omega)
    have hr : seqRange s.current k = [] := by
      unfold seqRange
      rw [hc]
      simp
    rw [hr]
    exact ⟨hc, by simp [scanLoop]⟩
  | succ fuel ih =>
    intro s h0 hle hf
    by_cases hck : s.current = k + 1
    · have hg : scanGuard env maxF final s = false := by
        unfold scanGuard
        simp [hstop, hck]
      have hr : seqRange s.current k = [] := by
        unfold seqRange
        rw [hck]
        simp
      rw [hr]
      have hstep : scanLoop env maxF final (fuel + 1) s = s := by
        show (if scanGuard env maxF final s = true
            then scanLoop env maxF final fuel (scanIter env s) else s) = s
        rw [hg]
        simp
      rw [hstep]
      exact ⟨hck, by simp⟩
    · have hck' : s.current ≤ k := by omega
      have hg : scanGuard env maxF final s = true := by
        unfold scanGuard
        simp [hstop, h0, hmax]
        omega
      cases hfe : env.fetch s.current with
      | failure => exact absurd hfe (hfetch s.current hck')
      | success hm hp =>
        obtain ⟨p0, p1, p2⟩ := scanIter_success_props env s hm hp hfe
        have hstep : scanLoop env maxF final (fuel + 1) s
            = scanLoop env maxF final fuel (scanIter env s) := by
          show (if scanGuard env maxF final s = true
              then scanLoop env maxF final fuel (scanIter env s) else s)
            = scanLoop env maxF final fuel (scanIter env s)
          rw [hg]
          simp
        obtain ⟨q1, q2⟩ := ih (scanIter env s) p0 (by omega) (by omega)
        rw [hstep]
        refine ⟨q1, ?_⟩
        rw [q2, p2, p1, seqRange_eq_cons s.current k hck', List.append_assoc,
          List.singleton_append]

/-- **C5.** If the stop flag becomes set while item `k` (a fetchable
item within the scan range) is in flight, the loop finishes that item,
never fetches any later sequence (the fetch attempts are exactly
`start..k`), checkpoints the cursor at `k` via the unconditional final
save, and the session transitions to Stopped. -/
theorem stop_request_stops_scan (env : ScanEnv) (maxF start k final : Nat)
    (hmax : 0 < maxF) (hsk : start ≤ k) (hkf : k ≤ final)
    (hstop : ∀ n, env.stopFlag n = decide (k < n))
    (hfetch : ∀ n, n ≤ k → env.fetch n ≠ .failure) :
    (runIndexing env maxF start final).outcome = SessionOutcome.stopped ∧
    (runIndexing env maxF start final).finalSaved = k ∧
    (runIndexing env maxF start final).attempts = seqRange start k ∧
    ∀ n ∈ (runIndexing env maxF start final).attempts, n ≤ k := by
  have main := scanLoop_stop_run env maxF final k hmax hkf hstop hfetch
    (final + 1 - start) (initScanState start) rfl
    (by simp only [initScanState]; omega) (by simp only [initScanState]; omega)
  obtain ⟨hcur, hatt⟩ := main
  unfold runIndexing mkResult
  rw [hcur, hatt]
  refine ⟨by simp [hstop], by simp, by simp [initScanState], ?_⟩
  intro n hn
  simp only [initScanState, List.nil_append] at hn
  unfold seqRange at hn
  have := List.mem_range'_1.mp hn
  omega

theorem stop_request_stops_scan_witness :
    (runIndexing ⟨fun _ => .success true false, fun n => decide (3 < n)⟩ 50 1 10).outcome
        = SessionOutcome.stopped ∧
    (runIndexing ⟨fun _ => .success true false, fun n => decide (3 < n)⟩ 50 1 10).finalSaved = 3 ∧
    (runIndexing ⟨fun _ => .success true false, fun n => decide (3 < n)⟩ 50 1 10).attempts
        = [1, 2, 3] := by
  have h := stop_request_stops_scan ⟨fun _ => .success true false, fun n => decide (3 < n)⟩
    50 1 3 10 (by decide) (by decide) (by decide)
    (fun n => rfl) (fun n _ h => FetchOutcome.noConfusion h)
  exact ⟨h.1, h.2.1, h.2.2.1.trans (by decide)⟩

/-! ## ScanCursor (checkpoint persistence)

`index_channel_messages` checkpoints through
`db.update_last_indexed_message_id` and resumes through
`db.get_stored_last_indexed_message_id` (`bot/handlers.py` lines 544,
595, 626, 749, 769, 1391), but neither method is defined in
`bot/database.py` — only the callers exist under `src/`. -/

/-- Modelled from the spec: the cursor store behind
`update_last_indexed_message_id` / `get_stored_last_indexed_message_id`
is missing from `src/bot/database.py`; per §4.4 `checkpoint` is
idempotent and monotone — a sequence ≤ the stored value is a no-op,
otherwise the per-channel value is overwritten.  The store maps a
channel id to its last indexed sequence (zero when absent). -/
def checkpointCursor (store : Int → Nat) (chan : Int) (seq : Nat) : Int → Nat :=
  if seq ≤ store chan then store
  else fun c => if c = chan then seq else store c

/-- **C6.** Checkpointing is idempotent and monotone: a checkpoint with
a sequence ≤ the stored value leaves the store unchanged; in
particular, `checkpoint(chan, 100)` followed by `checkpoint(chan, 50)`
leaves the stored value at 100 (from the fresh zero-valued cursor). -/
theorem checkpoint_monotone_noop :
    (∀ (store : Int → Nat) (chan : Int) (seq : Nat), seq ≤ store chan →
        checkpointCursor store chan seq = store) ∧
    checkpointCursor (checkpointCursor (fun _ => 0) 7 100) 7 50 7 = 100 := by
  constructor
  · intro store chan seq h
    unfold checkpointCursor
    rw [if_pos h]
  · decide

theorem checkpoint_monotone_noop_witness :
    checkpointCursor (fun _ => (120 : Nat)) 7 100 = fun _ => (120 : Nat) :=
  checkpoint_monotone_noop.1 (fun _ => 120) 7 100 (by decide)

/-! ## Backup forwarding (`forward_to_backup`, `bot/handlers.py`
lines 272–350)

On a `FloodWait` the code sleeps the signaled duration and re-invokes
itself (line 342); any other send exception reaches the outer handler
and returns `None` (lines 348–350).  The backup sink is modelled as the
list of outcomes it produces for successive send calls. -/

/-- One send call's outcome at the backup sink. -/
inductive SendOutcome
  | delivered (fileId : List Char)
  | floodWait (seconds : Nat)
  | sendFailure
deriving DecidableEq

/-- The observables of `forward_to_backup`: the slept durations, the
number of send calls, and the returned backup file id. -/
structure ForwardResult where
  sleeps : List Nat
  sendCalls : Nat
  backupFileId : Option (List Char)
deriving DecidableEq

/-- `forward_to_backup` against a sink behaviour: success returns the
forwarded file id; `FloodWait w` sleeps `w` and recursively re-runs the
whole send (line 342); any other failure returns `None`. -/
def forward_to_backup : List SendOutcome → ForwardResult
  | [] => ⟨[], 0, none⟩
  | .delivered fid :: _ => ⟨[], 1, some fid⟩
  | .sendFailure :: _ => ⟨[], 1, none⟩
  | .floodWait w :: rest =>
    let r := forward_to_backup rest
    ⟨w :: r.sleeps, r.sendCalls + 1, r.backupFileId⟩

/-- **C7 (counterexample).** When the sink rate-limits twice and then
delivers, the sender sleeps both signaled durations and performs three
send calls — a second retry of the same send does occur, so the
"retries exactly once, never a second retry" policy does not hold. -/
theorem floodwait_single_retry_counterexample :
    forward_to_backup [.floodWait 5, .floodWait 7, .delivered "F".data] =
      ⟨[5, 7], 3, some "F".data⟩ ∧
    ¬ (forward_to_backup
        [.floodWait 5, .floodWait 7, .delivered "F".data]).sendCalls ≤ 2 := by
  refine ⟨by decide, by decide⟩

/-- **C7 (amended).** Each rate-limit signal makes the sender sleep the
signaled duration and re-run the whole send, so retries repeat for
every successive rate-limit signal (they are not limited to one); a
non-rate-limit send failure surfaces as a `None` backup id for the item
without aborting anything and without a retry. -/
theorem floodwait_retry_per_signal_amended :
    (∀ (w : Nat) (rest : List SendOutcome),
        forward_to_backup (.floodWait w :: rest) =
          ⟨w :: (forward_to_backup rest).sleeps,
            (forward_to_backup rest).sendCalls + 1,
            (forward_to_backup rest).backupFileId⟩) ∧
    (∀ (fid : List Char) (rest : List SendOutcome),
        forward_to_backup (.delivered fid :: rest) = ⟨[], 1, some fid⟩) ∧
    (∀ rest : List SendOutcome,
        forward_to_backup (.sendFailure :: rest) = ⟨[], 1, none⟩) :=
  ⟨fun _ _ => rfl, fun _ _ => rfl, fun _ => rfl⟩

/-! ## Document store (`bot/database.py`, `bot/handlers.py` lines 36–49)

The MongoDB collection is modelled as a list of documents; the schema
fields other than the two identifiers are condensed into `payload`.
`_create_indexes` (line 52) declares a unique index on `file_id`, so
`insert_one` with an already present `file_id` raises
`DuplicateKeyError`, which `insert_file` catches and turns into `False`
(lines 77–79). -/

/-- A stored file document: primary identifier, secondary
unique-content identifier, and the remaining metadata fields. -/
structure FileDoc where
  file_id : List Char
  file_unique_id : List Char
  payload : List Char
deriving DecidableEq

/-- `collection.find_one({"file_id": fid})` (lines 84–93). -/
def get_file_by_id (db : List FileDoc) (fid : List Char) : Option FileDoc :=
  db.find? (fun d => d.file_id == fid)

/-- `collection.find_one({"file_unique_id": uid})` (lines 266–275). -/
def get_file_by_unique_id (db : List FileDoc) (uid : List Char) : Option FileDoc :=
  db.find? (fun d => d.file_unique_id == uid)

/-- `insert_file` (lines 67–82): `insert_one` under the unique index on
`file_id`; a duplicate key leaves the collection unchanged and returns
`False`. -/
def insert_file (db : List FileDoc) (doc : FileDoc) : List FileDoc × Bool :=
  if db.any (fun d => d.file_id == doc.file_id) then (db, false)
  else (db ++ [doc], true)

/-- The dedup guard of `handle_media_message` (lines 36–49): skip when
the primary id is already stored, or when the secondary unique id is
truthy and already stored. -/
def shouldIndex (db : List FileDoc) (doc : FileDoc) : Bool :=
  (get_file_by_id db doc.file_id).isNone &&
    (doc.file_unique_id.isEmpty || (get_file_by_unique_id db doc.file_unique_id).isNone)

/-- `handle_media_message`'s effect on the store: look up both
identifiers, then insert only if neither is present. -/
def indexMedia (db : List FileDoc) (doc : FileDoc) : List FileDoc :=
  if shouldIndex db doc then (insert_file db doc).1 else db

/-- Number of stored records with the given primary identifier. -/
def countId (db : List FileDoc) (fid : List Char) : Nat :=
  (db.filter (fun d => d.file_id == fid)).length

theorem insert_file_dup (db : List FileDoc) (doc : FileDoc)
    (h : ∃ d ∈ db, d.file_id = doc.file_id) :
    insert_file db doc = (db, false) := by
  unfold insert_file
  have : db.any (fun d => d.file_id == doc.file_id) = true := by
    rcases h with ⟨d, hd, he⟩
    exact List.any_eq_true.mpr ⟨d, hd, by simp [he]⟩
  rw [this]
  simp

/-- **C8.** Record persistence is deduplicated: inserting a document
whose primary `file_id` is already stored is a no-op returning `False`;
starting from a store without the key, inserting the same document
twice leaves exactly one record under that key; and
`handle_media_message` skips the whole indexing step when the primary
lookup (or the truthy secondary unique-id lookup) finds an existing
record, so re-scans never duplicate records. -/
theorem insert_dedup_idempotent :
    (∀ (db : List FileDoc) (doc : FileDoc),
        (∃ d ∈ db, d.file_id = doc.file_id) → insert_file db doc = (db, false)) ∧
    (∀ (db : List FileDoc) (doc : FileDoc), countId db doc.file_id = 0 →
        countId (insert_file (insert_file db doc).1 doc).1 doc.file_id = 1) ∧
    (∀ (db : List FileDoc) (doc : FileDoc),
        (get_file_by_id db doc.file_id).isSome → indexMedia db doc = db) ∧
    (∀ (db : List FileDoc) (doc : FileDoc), doc.file_unique_id ≠ [] →
        (get_file_by_unique_id db doc.file_unique_id).isSome → indexMedia db doc = db) := by
  refine ⟨insert_file_dup, ?_, ?_, ?_⟩
  · intro db doc h0
    have hempty : db.filter (fun d => d.file_id == doc.file_id) = [] :=
      List.length_eq_zero.mp h0
    have hnone : db.any (fun d => d.file_id == doc.file_id) = false := by
      rw [Bool.eq_false_iff]
      intro hs
      rcases List.any_eq_true.mp hs with ⟨d, hd, he⟩
      have : d ∈ db.filter (fun d => d.file_id == doc.file_id) :=
        List.mem_filter.mpr ⟨hd, he⟩
      rw [hempty] at this
      exact absurd this (List.not_mem_nil d)
    have h1 : insert_file db doc = (db ++ [doc], true) := by
      unfold insert_file
      rw [hnone]
      simp
    have h2 : insert_file (db ++ [doc]) doc = (db ++ [doc], false) := by
      apply insert_file_dup
      exact ⟨doc, by simp, rfl⟩
    rw [h1, h2]
    unfold countId
    rw [List.filter_append, hempty]
    simp
  · intro db doc h
    unfold indexMedia shouldIndex
    cases hx : get_file_by_id db doc.file_id with
    | none => rw [hx] at h; simp at h
    | some v => simp [hx]
  · intro db doc hne h
    unfold indexMedia shouldIndex
    have h1 : doc.file_unique_id.isEmpty = false := by
      cases hu : doc.file_unique_id with
      | nil => exact absurd hu hne
      | cons a t => rfl
    have h2 : (get_file_by_unique_id db doc.file_unique_id).isNone = false := by
      rw [Bool.eq_false_iff]
      intro hn
      rw [Option.isNone_iff_eq_none] at hn
      rw [hn] at h
      exact Bool.false_ne_true h
    simp [h1, h2]

theorem insert_dedup_idempotent_witness :
    insert_file [⟨"A".data, "U".data, "p1".data⟩] ⟨"A".data, "V".data, "p2".data⟩ =
      ([⟨"A".data, "U".data, "p1".data⟩], false) ∧
    countId (insert_file (insert_file [] ⟨"A".data, "U".data, "p1".data⟩).1
        ⟨"A".data, "U".data, "p1".data⟩).1 "A".data = 1 ∧
    indexMedia [⟨"A".data, "U".data, "p1".data⟩] ⟨"A".data, "V".data, "p2".data⟩ =
      [⟨"A".data, "U".data, "p1".data⟩] :=
  ⟨insert_dedup_idempotent.1 [⟨"A".data, "U".data, "p1".data⟩]
      ⟨"A".data, "V".data, "p2".data⟩ ⟨⟨"A".data, "U".data, "p1".data⟩, by decide, rfl⟩,
   insert_dedup_idempotent.2.1 [] ⟨"A".data, "U".data, "p1".data⟩ (by decide),
   insert_dedup_idempotent.2.2.1 [⟨"A".data, "U".data, "p1".data⟩]
      ⟨"A".data, "V".data, "p2".data⟩ (by decide)⟩

/-! ## get_file_metadata (`bot/utils.py` lines 9–74)

A message and its four possible media payloads; the metadata dict is a
structure in which keys absent from the corresponding Python dict are
`none`.  The outer exception handler and the `file_data if file_data
else None` tail mean a message with no payload yields `None`. -/

/-- `message.audio`. -/
structure AudioPayload where
  file_id : List Char
  file_unique_id : List Char
  file_name : Option (List Char)
  mime_type : Option (List Char)
  file_size : Option Nat
  duration : Option Nat
deriving DecidableEq

/-- `message.video`. -/
structure VideoPayload where
  file_id : List Char
  file_unique_id : List Char
  file_name : Option (List Char)
  mime_type : Option (List Char)
  file_size : Option Nat
  duration : Option Nat
  width : Option Nat
  height : Option Nat
deriving DecidableEq

/-- `message.document`. -/
structure DocumentPayload where
  file_id : List Char
  file_unique_id : List Char
  file_name : Option (List Char)
  mime_type : Option (List Char)
  file_size : Option Nat
deriving DecidableEq

/-- One `PhotoSize`. -/
structure PhotoSize where
  file_id : List Char
  file_unique_id : List Char
  file_size : Option Nat
  width : Option Nat
  height : Option Nat
deriving DecidableEq

/-- `message.photo` is usually a single object but the code also
handles a list of sizes (lines 50–59). -/
inductive PhotoField
  | single (p : PhotoSize)
  | sizes (ps : List PhotoSize)
deriving DecidableEq

/-- The slice of a Pyrogram message consumed by `get_file_metadata`. -/
structure Msg where
  id : Nat
  audio : Option AudioPayload
  video : Option VideoPayload
  document : Option DocumentPayload
  photo : Option PhotoField
deriving DecidableEq

/-- The metadata dict built by `get_file_metadata`. -/
structure FileMeta where
  file_id : List Char
  file_unique_id : List Char
  file_name : List Char
  file_type : List Char
  mime_type : Option (List Char)
  file_size : Option Nat
  duration : Option Nat
  width : Option Nat
  height : Option Nat
deriving DecidableEq

/-- Python `value or default` on strings (`None` and the empty string
are falsy). -/
def orDefault (v : Option (List Char)) (d : List Char) : List Char :=
  match v with
  | some s => if s.isEmpty then d else s
  | none => d

/-- The audio branch (lines 14–23). -/
def audioMeta (a : AudioPayload) : FileMeta :=
  ⟨a.file_id, a.file_unique_id, orDefault a.file_name "Unknown Audio".data,
    "audio".data, a.mime_type, a.file_size, a.duration, none, none⟩

/-- The video branch (lines 25–36). -/
def videoMeta (v : VideoPayload) : FileMeta :=
  ⟨v.file_id, v.file_unique_id, orDefault v.file_name "Unknown Video".data,
    "video".data, v.mime_type, v.file_size, v.duration, v.width, v.height⟩

/-- The document branch (lines 38–46). -/
def documentMeta (d : DocumentPayload) : FileMeta :=
  ⟨d.file_id, d.file_unique_id, orDefault d.file_name "Unknown Document".data,
    "document".data, d.mime_type, d.file_size, none, none, none⟩

/-- The photo branch (lines 48–68); the file name is
`f"photo_{message.id}.jpg"`. -/
def photoMeta (msgId : Nat) (p : PhotoSize) : FileMeta :=
  ⟨p.file_id, p.file_unique_id,
    "photo_".data ++ (Nat.repr msgId).data ++ ".jpg".data,
    "photo".data, none, p.file_size, none, p.width, p.height⟩

/-- `max(message.photo, key=lambda x: getattr(x, 'file_size', 0) or 0)`
(line 53): Python `max` keeps the first element attaining the maximum
key. -/
def maxBySize : PhotoSize → List PhotoSize → PhotoSize
  | best, [] => best
  | best, p :: t =>
    if best.file_size.getD 0 < p.file_size.getD 0 then maxBySize p t
    else maxBySize best t

/-- `get_file_metadata`: the fixed `audio`/`video`/`document`/`photo`
priority chain; an empty photo-size list is falsy, so its branch is not
taken and the function returns `None`. -/
def get_file_metadata (m : Msg) : Option FileMeta :=
  match m.audio with
  | some a => some (audioMeta a)
  | none =>
  match m.video with
  | some v => some (videoMeta v)
  | none =>
  match m.document with
  | some d => some (documentMeta d)
  | none =>
  match m.photo with
  | some (.single p) => some (photoMeta m.id p)
  | some (.sizes []) => none
  | some (.sizes (p :: ps)) => some (photoMeta m.id (maxBySize p ps))
  | none => none

/-- **C10.** `get_file_metadata` classifies by the fixed priority
audio → video → document → photo: whenever a higher-priority payload is
present the metadata (identifiers, type, dedup key) comes from it
regardless of the lower-priority ones, and a message with none of the
four payloads yields no metadata. -/
theorem file_metadata_priority :
    (∀ (m : Msg) (a : AudioPayload), m.audio = some a →
        get_file_metadata m = some (audioMeta a)) ∧
    (∀ (m : Msg) (v : VideoPayload), m.audio = none → m.video = some v →
        get_file_metadata m = some (videoMeta v)) ∧
    (∀ (m : Msg) (d : DocumentPayload), m.audio = none → m.video = none →
        m.document = some d → get_file_metadata m = some (documentMeta d)) ∧
    (∀ (m : Msg) (p : PhotoSize), m.audio = none → m.video = none →
        m.document = none → m.photo = some (.single p) →
        get_file_metadata m = some (photoMeta m.id p)) ∧
    (∀ m : Msg, m.audio = none → m.video = none → m.document = none →
        m.photo = none → get_file_metadata m = none) := by
  refine ⟨?_, ?_, ?_, ?_, ?_⟩
  · intro m a h
    unfold get_file_metadata
    rw [h]
  · intro m v h1 h2
    unfold get_file_metadata
    rw [h1, h2]
  · intro m d h1 h2 h3
    unfold get_file_metadata
    rw [h1, h2, h3]
  · intro m p h1 h2 h3 h4
    unfold get_file_metadata
    rw [h1, h2, h3, h4]
  · intro m h1 h2 h3 h4
    unfold get_file_metadata
    rw [h1, h2, h3, h4]

theorem file_metadata_priority_witness :
    get_file_metadata
        ⟨7, some ⟨"AID".data, "AU".data, none, none, some 9, some 100⟩,
          some ⟨"VID".data, "VU".data, none, none, none, none, none, none⟩,
          none, none⟩
      = some (audioMeta ⟨"AID".data, "AU".data, none, none, some 9, some 100⟩) :=
  file_metadata_priority.1 _ _ rfl

end StMusicDb
